import Mathlib

/-!
GroceryHelper: shallow embedding of the trip-planning core.

This file embeds the route-search-and-scoring engine of `src/planning.py`
(`TripPlanner.find_routes`, `TripPlanner.__find_path_continuations`,
`TripPlanner.__get_store_score`, `TripPlan`, `TripStop`) and proves or refutes
the specification's claims about it.

Python exceptions are modelled with `Except PyError`; Python `float` arithmetic
is modelled exactly over `ℚ`; the Python object heap of `TripStop` nodes is
modelled as a list of nodes indexed by address, so that the in-place mutations
of `TripPlan.add_stop` and `TripPlan.combine` are visible.

The `Store` class lives in `models.py`, which is not part of the sources; its
distance method `calc_euc_dist_from` is therefore taken as an opaque oracle
parameter `dist`, exactly as the specification treats `distanceBetween` (an
external collaborator, §6).
-/

namespace GroceryHelper

/-- The kinds of Python exceptions the embedded code paths can raise, plus the
`InvalidArgument` error the specification postulates (which the code never
raises). -/
inductive PyError where
  | keyError
  | typeError
  | attributeError
  | zeroDivisionError
  | invalidArgument
deriving DecidableEq, Repr

/-- A resolved 2-D coordinate (spec §3 `Point`; `Location` latitude/longitude
in the repository). -/
structure Point where
  latitude : ℚ
  longitude : ℚ
deriving DecidableEq, Repr

/-- A store: identifier and inventory of item identifiers. `models.py` is not
in the sources; only the fields the planner could consult are modelled. Python
list membership (`next_store not in visited`) falls back to object identity for
`Store`; the concrete store lists used below contain pairwise distinct values,
for which structural equality coincides with identity. -/
structure Store where
  store_id : Nat
  items : List Nat
deriving DecidableEq, Repr

/-- The three attributes `TripPlan.__init__` sets (src/planning.py 90–103).
`first_stop`/`last_stop` hold heap addresses of `TripStop` nodes (`none` is
Python `None`). -/
structure TripPlanObj where
  first_stop : Option Nat
  last_stop : Option Nat
  score : ℚ
deriving DecidableEq, Repr

/-- The keyword-argument dictionary received by `TripPlan.__init__`. The outer
`Option` is key presence (Python raises `KeyError` on a missing key); the inner
`Option` is the value, which may itself be `None`. The `first_stop` keyword is
only ever passed the starting location at src/planning.py line 22, hence its
payload type `Point`. -/
structure TPOptions where
  base_plan : Option (Option TripPlanObj)
  first_stop : Option (Option Point)
deriving DecidableEq, Repr

/-- Embedding of `TripPlan.__init__` (src/planning.py 90–103).

The body is `if options['base_plan']: ... elif options['first_stop']: ... else ...`.
Python dict subscription raises `KeyError` when the key is absent, so the
lookup of `'base_plan'` fails before `'first_stop'` is ever consulted. A
present `TripPlan` object is always truthy; a present `None` is falsy. In the
`first_stop` branch the code reads `self.first_stop.score`, and the only value
ever supplied for that key is a location, which has no `score` attribute, hence
`AttributeError` there. -/
def tripPlanInit (options : TPOptions) : Except PyError TripPlanObj :=
  match options.base_plan with
  | none => .error .keyError
  | some (some bp) =>
      .ok { first_stop := bp.first_stop, last_stop := bp.last_stop, score := bp.score }
  | some none =>
      match options.first_stop with
      | none => .error .keyError
      | some (some _loc) => .error .attributeError
      | some none => .ok { first_stop := none, last_stop := none, score := 0 }

/-- A `TripStop` node (src/planning.py 138–152): `prev_stop`/`next_stop` hold
heap addresses, `__init__` sets `next_stop = None`. -/
structure TripStop where
  prev_stop : Option Nat
  store : Nat
  dist_from_prev : ℚ
  score : ℚ
  next_stop : Option Nat
deriving DecidableEq, Repr

/-- The heap of `TripStop` nodes; a node's address is its index. -/
abbrev Heap := List TripStop

/-- Placeholder node used only to totalise heap reads at well-formed addresses. -/
def defaultStop : TripStop :=
  { prev_stop := none, store := 0, dist_from_prev := 0, score := 0, next_stop := none }

/-- Embedding of `TripPlan.add_stop` (src/planning.py 105–116). `new_stop` is
the address of the node being appended. When the plan already has a first stop
the code executes `self.last_stop.next_stop = new_stop` — an in-place mutation
of the heap node `self.last_stop` points to (`AttributeError` if `last_stop` is
`None`) — then repoints `self.last_stop` and adds the new stop's score. -/
def add_stop (heap : Heap) (plan : TripPlanObj) (new_stop : Nat) :
    Except PyError (Heap × TripPlanObj) :=
  let new_score := plan.score + (heap.getD new_stop defaultStop).score
  match plan.first_stop with
  | some _ =>
      match plan.last_stop with
      | none => .error .attributeError
      | some la =>
          let node := heap.getD la defaultStop
          let heap1 := heap.set la { node with next_stop := some new_stop }
          .ok (heap1, { plan with last_stop := some new_stop, score := new_score })
  | none =>
      .ok (heap, { first_stop := some new_stop, last_stop := some new_stop,
                   score := new_score })

/-- Embedding of `TripPlan.combine` (src/planning.py 118–122). The method
mutates both arguments (`first_plan.last_stop = second_plan.first_stop;
second_plan.first_stop = first_plan.last_stop`) and, having no `return`
statement, returns Python `None`. The result triple is (mutated first plan,
mutated second plan, return value). -/
def combine (first_plan second_plan : TripPlanObj) :
    TripPlanObj × TripPlanObj × Option TripPlanObj :=
  let first1 := { first_plan with last_stop := second_plan.first_stop }
  let second1 := { second_plan with first_stop := first1.last_stop }
  (first1, second1, none)

/-- Reads the store-identifier sequence of the stop chain rooted at an address,
following `next_stop` pointers through the heap (`fuel` bounds the traversal,
which suffices for the finite chains considered here). -/
def chainStores (heap : Heap) : Option Nat → Nat → List Nat
  | none, _ => []
  | some _, 0 => []
  | some a, fuel + 1 =>
      let node := heap.getD a defaultStop
      node.store :: chainStores heap node.next_stop fuel

/-- The `for next_store in self.stores` loop of
`TripPlanner.__find_path_continuations` (src/planning.py 37–63).

For a store already in `visited` the loop moves on. Otherwise the body runs:
`items_here = None` (the inventory lookup is the unimplemented placeholder
`None  # TODO`); the skip test `if items_here == 0` is Python-`False`
(`None == 0` is `False`, as is `[] == 0`), so no store is ever skipped; the
next line, `[item for item in items_needed not in items_here]`, parses as
iteration over the comparison `items_needed not in items_here`, and evaluating
`not in` against `None` raises
`TypeError: argument of type 'NoneType' is not iterable`. Hence the first
unvisited store aborts the call; if every store is visited the loop finishes
and the (still empty) `possible_paths` list is returned. -/
def fpcLoop (visited : List Store) : List Store → Except PyError (List TripPlanObj)
  | [] => .ok []
  | next_store :: rest =>
      if next_store ∈ visited then fpcLoop visited rest
      else .error .typeError

/-- Embedding of `TripPlanner.__find_path_continuations` (src/planning.py
29–63). `base_plan`, `items_needed` and `max_dist_btwn_stops` are never reached
by any computation before the loop terminates or raises, so they are carried
only for signature fidelity. -/
def find_path_continuations (stores : List Store) (_base_plan : TripPlanObj)
    (visited : List Store) (_items_needed : List Nat)
    (_max_dist_btwn_stops : ℚ) : Except PyError (List TripPlanObj) :=
  fpcLoop visited stores

/-- Embedding of `TripPlanner.find_routes` (src/planning.py 11–27).

Line 21 filters `nearby_stores` by direct distance from the start (`dist` is
the opaque distance oracle, spec §6). Line 22 constructs
`TripPlan(first_stop=self.starting_location)`, i.e. `tripPlanInit` with only
the `first_stop` key present. Line 23 would search from the base plan with
budget `2*max_distance`; line 25 is the unimplemented `# TODO Sort routes`. -/
def find_routes (starting_location : Point) (dist : Store → Point → ℚ)
    (needed_items : List Nat) (nearby_stores : List Store) (max_distance : ℚ) :
    Except PyError (List TripPlanObj) := do
  let stores := nearby_stores.filter
    (fun s => decide (dist s starting_location ≤ max_distance))
  let base_plan ← tripPlanInit { base_plan := none, first_stop := some (some starting_location) }
  let routes ← find_path_continuations stores base_plan [] needed_items (2 * max_distance)
  return routes

/-- `TripPlanner.ITEMS_WEIGHT` (src/planning.py 66). -/
def ITEMS_WEIGHT : ℚ := 2

/-- `TripPlanner.DISTANCE_WEIGHT` (src/planning.py 67). -/
def DISTANCE_WEIGHT : ℚ := 1

/-- Embedding of `TripPlanner.__get_store_score` (src/planning.py 69–85).
Python raises `ZeroDivisionError` when `items_needed` is empty, and again when
`max_dist_btwn_stops` is zero; otherwise the weighted average is returned with
the distance ratio NOT clamped. (`number_have` is the source's own name for
what is in fact the count of items *not* available at the store.) -/
def get_store_score (items_at_store items_needed : List Nat)
    (distance_to_store max_dist_btwn_stops : ℚ) : Except PyError ℚ :=
  if items_needed.length = 0 then .error .zeroDivisionError
  else
    let number_have : ℚ :=
      ((items_needed.filter (fun x => decide (x ∉ items_at_store))).length : ℚ)
    let percent_do_not_have := number_have / (items_needed.length : ℚ)
    if max_dist_btwn_stops = 0 then .error .zeroDivisionError
    else
      let distance_score := distance_to_store / max_dist_btwn_stops
      .ok ((percent_do_not_have * ITEMS_WEIGHT + distance_score * DISTANCE_WEIGHT) /
        (ITEMS_WEIGHT + DISTANCE_WEIGHT))

/-- The stop score as the specification words it (§4.3): identical weights, but
with `normalizedDistance = distanceFromPrevious / maxDistanceBudget` clamped to
`[0,1]`. Stated from the spec for comparison with `get_store_score`. -/
def stopScore_spec (itemsAtStore itemsStillNeeded : List Nat) (d budget : ℚ) : ℚ :=
  let fractionStillMissing : ℚ :=
    ((itemsStillNeeded.filter (fun x => decide (x ∉ itemsAtStore))).length : ℚ) /
      (itemsStillNeeded.length : ℚ)
  let normalizedDistance := max 0 (min 1 (d / budget))
  (2 * fractionStillMissing + 1 * normalizedDistance) / (2 + 1)

/-! Concrete inputs used to evaluate the embedded code. -/

/-- A starting point. -/
def p0 : Point := { latitude := 0, longitude := 0 }

/-- A distance oracle placing every store at distance 1 from every point. -/
def dist0 : Store → Point → ℚ := fun _ _ => 1

/-- A store stocking item 10. -/
def storeA : Store := { store_id := 1, items := [10] }

/-- A store stocking items 10 and 11. -/
def storeFull : Store := { store_id := 2, items := [10, 11] }

/-- A store stocking only item 99 — no intersection with needs `[10]`. -/
def storeNoCover : Store := { store_id := 3, items := [99] }

/-- The empty trip plan (all fields as the `else` branch of `TripPlan.__init__`
would set them). -/
def emptyPlan : TripPlanObj := { first_stop := none, last_stop := none, score := 0 }

/-- An existing stop chain of one node (store 1), at heap address 0. -/
def nodeA : TripStop :=
  { prev_stop := none, store := 1, dist_from_prev := 1, score := 1, next_stop := none }

/-- A freshly constructed stop for store 2, at heap address 1. -/
def nodeB : TripStop :=
  { prev_stop := some 0, store := 2, dist_from_prev := 3, score := 2, next_stop := none }

/-- The heap before the extension: the original chain `[nodeA]` plus the new
node `nodeB` just allocated by `TripStop.__init__`. -/
def heap0 : Heap := [nodeA, nodeB]

/-- The original one-stop plan: both ends at address 0, running score 1. -/
def planOrig : TripPlanObj := { first_stop := some 0, last_stop := some 0, score := 1 }

/-- C1: for every start location, needed-items list, store list and
max_distance, `find_routes` never returns normally: constructing
`TripPlan(first_stop=starting_location)` evaluates `options['base_plan']`
before checking for `'first_stop'`, so the call raises `KeyError` instead of
producing a route list. -/
theorem find_routes_always_raises_keyError (starting_location : Point)
    (dist : Store → Point → ℚ) (needed_items : List Nat)
    (nearby_stores : List Store) (max_distance : ℚ) :
    find_routes starting_location dist needed_items nearby_stores max_distance =
      .error .keyError := rfl

/-- C2 (claim: the returned route list is sorted ascending by score): at a
concrete, entirely well-formed input `find_routes` raises `KeyError` and
returns no list at all; the sort at src/planning.py line 25 is moreover an
unimplemented TODO. -/
theorem find_routes_returns_no_sorted_list :
    find_routes p0 dist0 [10] [storeA] 5 = .error .keyError := rfl

/-- C3 (claim: an empty needed-items set yields exactly one zero-stop route of
score 0): `find_routes` with empty needs raises `KeyError`; and even the inner
search, run directly on an empty base plan with empty needs, yields the empty
list, not a single zero-stop plan. -/
theorem find_routes_empty_needs_raises :
    find_routes p0 dist0 [] [] 5 = .error .keyError ∧
    find_path_continuations [] emptyPlan [] [] 10 = .ok [] := ⟨rfl, rfl⟩

/-- C4 (claim: every returned route covers all needed items): `find_routes`
raises `KeyError` and returns no route; the inner search itself, given a store
stocking every needed item, raises `TypeError` at that store (its inventory
lookup is the placeholder `None`), so no complete route is ever assembled. -/
theorem find_routes_builds_no_complete_route :
    find_routes p0 dist0 [10, 11] [storeFull] 5 = .error .keyError ∧
    find_path_continuations [storeFull] emptyPlan [] [10, 11] 10 =
      .error .typeError := ⟨rfl, rfl⟩

/-- C5 (claim: returned routes have pairwise-distinct stores): `find_routes`
raises `KeyError` and returns no route whose distinctness could be checked;
the inner search raises `TypeError` at the first unvisited store, and skips a
store only when it already sits in the shared `visited` list. -/
theorem find_routes_returns_no_simple_path :
    find_routes p0 dist0 [10] [storeA, storeFull] 5 = .error .keyError ∧
    find_path_continuations [storeA, storeFull] emptyPlan [] [10] 10 =
      .error .typeError ∧
    find_path_continuations [storeA] emptyPlan [storeA] [10] 10 = .ok [] :=
  ⟨rfl, rfl, rfl⟩

/-- C6 (claim: a store whose addition would exceed the distance budget is
skipped, keeping cumulative distance within `maxTotalDistance`): the recursive
search contains no running-distance check at all — its result is the same for a
zero budget and an enormous one, and it aborts with `TypeError` before any
distance is even computed. -/
theorem budget_check_is_absent :
    find_path_continuations [storeA] emptyPlan [] [10] 0 =
      find_path_continuations [storeA] emptyPlan [] [10] 1000000 ∧
    find_path_continuations [storeA] emptyPlan [] [10] 0 = .error .typeError :=
  ⟨rfl, rfl⟩

/-- C7 (claim: a store contributing no needed item is skipped entirely): the
skip test `if items_here == 0` is Python-`False` for the placeholder `None`
(and would be `False` even for an empty list, since `[] == 0` is `False`), so
a zero-coverage store is not skipped — the search instead raises `TypeError`
while processing it, whereas it returns cleanly when that store is already
marked visited. -/
theorem zero_coverage_store_not_skipped :
    find_path_continuations [storeNoCover] emptyPlan [] [10] 10 =
      .error .typeError ∧
    find_path_continuations [storeNoCover] emptyPlan [storeNoCover] [10] 10 =
      .ok [] := ⟨rfl, rfl⟩

/-- C9 (claim: a negative `maxTotalDistance` raises `InvalidArgument`): with a
negative budget `find_routes` raises `KeyError`, not `InvalidArgument` — no
argument validation exists, and no input whatsoever can make `find_routes`
produce `InvalidArgument`. -/
theorem negative_budget_raises_keyError_not_invalidArgument :
    find_routes p0 dist0 [10] [] (-1) = .error .keyError ∧
    ∀ (s : Point) (dist : Store → Point → ℚ) (needed : List Nat)
      (stores : List Store) (maxd : ℚ),
      find_routes s dist needed stores maxd ≠ .error .invalidArgument := by
  refine ⟨rfl, ?_⟩
  intro s dist needed stores maxd h
  have h2 : (Except.error .keyError : Except PyError (List TripPlanObj)) =
      .error .invalidArgument := h
  simp at h2

/-- C10 (claim: extending a route yields a new Route, the original left
unchanged, so sibling branches never observe each other's extensions): the
`TripPlan(base_plan=...)` copy shares the stop-chain addresses of the original;
`add_stop` on that copy mutates the shared last node in place (sets its
`next_stop`), so the ORIGINAL plan's stop sequence — whose own fields are
untouched — now ends in the new stop too: before the extension the original
chain reads `[1]`, afterwards `[1, 2]`. `combine` additionally mutates both of
its arguments and returns Python `None`. -/
theorem add_stop_mutates_shared_chain :
    tripPlanInit { base_plan := some (some planOrig), first_stop := none } =
      .ok planOrig ∧
    add_stop heap0 planOrig 1 =
      .ok ([{ nodeA with next_stop := some 1 }, nodeB],
           { first_stop := some 0, last_stop := some 1, score := 3 }) ∧
    chainStores heap0 (some 0) 2 = [1] ∧
    chainStores [{ nodeA with next_stop := some 1 }, nodeB] (some 0) 3 = [1, 2] ∧
    (combine { first_stop := some 0, last_stop := some 1, score := 3 }
      planOrig).2.2 = none := by
  refine ⟨rfl, ?_, rfl, rfl, rfl⟩
  have h3 : (1 : ℚ) + 2 = 3 := by norm_num
  simp [add_stop, heap0, planOrig, nodeA, nodeB, defaultStop, h3]

/-- C8 counterexample: with `itemsAtStore = []`, `itemsStillNeeded = [0]`,
`distance = 6` and `budget = 3`, the code's score is `4/3`, which lies outside
`[0,1]`, while the spec formula with its clamped distance term gives `1`: the
code does not clamp `distance / budget`. -/
theorem get_store_score_exceeds_one :
    get_store_score [] [0] 6 3 = .ok (4 / 3) ∧
    ¬ ((4 : ℚ) / 3 ≤ 1) ∧
    stopScore_spec [] [0] 6 3 = 1 := by
  refine ⟨?_, by norm_num, ?_⟩
  · simp [get_store_score, ITEMS_WEIGHT, DISTANCE_WEIGHT]
    norm_num
  · simp [stopScore_spec]
    norm_num

/-- C8 amended: for nonempty `itemsStillNeeded`, positive budget and a
distance with `0 ≤ distance ≤ budget`, the per-stop score agrees with the spec
formula — whose clamp is then a no-op — and lies in `[0,1]`; the code itself
never clamps `distance / budget`, so outside that distance range the bound can
fail (see the counterexample). -/
theorem get_store_score_amended (A N : List Nat) (d b : ℚ)
    (hN : N ≠ []) (hb : 0 < b) (hd0 : 0 ≤ d) (hdb : d ≤ b) :
    get_store_score A N d b = .ok (stopScore_spec A N d b) ∧
    0 ≤ stopScore_spec A N d b ∧ stopScore_spec A N d b ≤ 1 := by
  have hlen : N.length ≠ 0 := fun h => hN (List.eq_nil_of_length_eq_zero h)
  have hlenQ : (0 : ℚ) < (N.length : ℚ) := by
    exact_mod_cast Nat.pos_of_ne_zero hlen
  have hfil : ((N.filter (fun x => decide (x ∉ A))).length : ℚ) ≤ (N.length : ℚ) := by
    exact_mod_cast List.length_filter_le _ _
  have hfil0 : (0 : ℚ) ≤ ((N.filter (fun x => decide (x ∉ A))).length : ℚ) := by
    positivity
  have hfrac0 : (0 : ℚ) ≤
      ((N.filter (fun x => decide (x ∉ A))).length : ℚ) / (N.length : ℚ) :=
    div_nonneg hfil0 hlenQ.le
  have hfrac1 :
      ((N.filter (fun x => decide (x ∉ A))).length : ℚ) / (N.length : ℚ) ≤ 1 :=
    (div_le_one hlenQ).mpr hfil
  have hnd0 : (0 : ℚ) ≤ d / b := div_nonneg hd0 hb.le
  have hnd1 : d / b ≤ 1 := (div_le_one hb).mpr hdb
  have hclamp : max 0 (min 1 (d / b)) = d / b := by
    rw [min_eq_right hnd1, max_eq_right hnd0]
  have hspec : stopScore_spec A N d b =
      (2 * (((N.filter (fun x => decide (x ∉ A))).length : ℚ) / (N.length : ℚ)) +
        1 * (d / b)) / (2 + 1) := by
    rw [stopScore_spec, hclamp]
  refine ⟨?_, ?_, ?_⟩
  · rw [get_store_score, if_neg hlen, if_neg hb.ne', hspec,
      ITEMS_WEIGHT, DISTANCE_WEIGHT]
    ring_nf
  · rw [hspec]
    positivity
  · rw [hspec, div_le_one (by norm_num)]
    nlinarith [hfrac1, hnd1]

/-- Witness for the amended C8 theorem at a concrete input: one needed item of
two is missing at the store, distance 1 against budget 2, score `(2·(1/2) + 1/2)/3 = 1/2`. -/
theorem get_store_score_amended_witness :
    get_store_score [10] [10, 11] 1 2 = .ok (stopScore_spec [10] [10, 11] 1 2) ∧
    0 ≤ stopScore_spec [10] [10, 11] 1 2 ∧ stopScore_spec [10] [10, 11] 1 2 ≤ 1 :=
  get_store_score_amended [10] [10, 11] 1 2 (by decide) (by norm_num)
    (by norm_num) (by norm_num)

end GroceryHelper
